import Mathlib

/-!
Verification of the VerifiedOnChain chain/storage/wallet services.

Shallow embedding conventions, used throughout:
* JS numbers are modelled as rationals (`ℚ`); machine timestamps as `ℤ`
  (milliseconds since the epoch).
* An ISO timestamp string (`new Date(ms).toISOString()`) is represented by the
  millisecond value `ms` it encodes; a date-only string
  (`toISOString().split('T')[0]`) is represented by the day index
  `ms / 86400000` (floor division, which is what the UTC calendar date of a
  millisecond timestamp is).
* Every network call (`fetch`) is an oracle value of type `FetchOutcome α`:
  the promise rejected, or the response was received with `ok = false`, or it
  was ok and its parsed JSON body is the `α` payload.  Fields the source reads
  through `parseFloat`/`parseInt` are carried as already-parsed numbers.
* `async` functions that mutate the module-level price cache are modelled as
  pure functions threading the cache explicitly.
* A function that can throw to its caller returns `Except String _`; a
  function whose body is wrapped in try/catch returns its value directly,
  with the catch branch's result written at each point a call can throw.
-/

namespace VerifiedOnChain

/-- The `Blockchain` enum of `types.ts`. -/
inductive Blockchain
  | BTC
  | ETH
  | SOL
  | BNB
  deriving DecidableEq, Repr

/-- `TokenAsset` of `types.ts`. -/
structure TokenAsset where
  symbol : String
  name : String
  balance : ℚ
  decimals : ℕ
  contractAddress : String
  chain : Blockchain
  logoUrl : Option String := none
  valueUSD : Option ℚ := none
  priceUSD : Option ℚ := none
  deriving DecidableEq, Repr

/-- The transaction-direction literal type of `LatestTransaction.type`. -/
inductive TxType
  | buy
  | sell
  | send
  | receive
  deriving DecidableEq, Repr

/-- `LatestTransaction` of `types.ts`.  The source fields `from`/`to` are named
`fromAddr`/`toAddr` (`from` is a Lean keyword). -/
structure LatestTransaction where
  hash : String
  timestamp : ℤ
  type : TxType
  token : TokenAsset
  amount : ℚ
  amountUSD : ℚ
  fromAddr : String
  toAddr : String
  fee : ℚ
  deriving DecidableEq, Repr

/-- One entry of `WalletStats.history`: `date` is the day index encoded by the
`yyyy-mm-dd` string (days since epoch), `value` the USD value. -/
structure HistoryEntry where
  date : ℤ
  value : ℚ
  deriving DecidableEq, Repr

/-- `WalletStats` of `types.ts`.  `firstTxDate` is the millisecond value of
the ISO string, see the header conventions. -/
structure WalletStats where
  balance : ℚ
  txCount : ℤ
  firstTxDate : ℤ
  lastUpdated : ℤ
  history : List HistoryEntry
  tokens : List TokenAsset
  latestTransaction : Option LatestTransaction
  isSimulatedHistory : Bool := false
  deriving DecidableEq, Repr

/-- One price-cache entry: `{ price, timestamp }` of `chain.ts`. -/
structure PriceEntry where
  price : ℚ
  timestamp : ℤ
  deriving DecidableEq, Repr

/-- The module-level `priceCache` object: a mutable map from coin id to entry,
modelled as a function. -/
def PriceCache : Type := String → Option PriceEntry

/-- The initial (empty) price cache. -/
def emptyCache : PriceCache := fun _ => none

/-- `PRICE_CACHE_TTL = 60 * 1000` of `chain.ts`. -/
def PRICE_CACHE_TTL : ℤ := 60 * 1000

/-- Outcome of one `fetch` call: the promise rejected (network failure), the
response arrived with `ok = false`, or it was ok with parsed body `data`. -/
inductive FetchOutcome (α : Type)
  | threw
  | notOk
  | ok (data : α)
  deriving DecidableEq, Repr

/-- `getCoingeckoId` of `chain.ts` (the `default` arm of the source switch is
unreachable: the four enum cases are all listed). -/
def getCoingeckoId : Blockchain → String
  | .BTC => "bitcoin"
  | .ETH => "ethereum"
  | .SOL => "solana"
  | .BNB => "binancecoin"

/-- What `fetchTokenPrices` produces: the returned id-to-price record, the
price cache after the call, and whether an upstream CoinGecko request was
issued. -/
structure PricesResult where
  prices : List (String × ℚ)
  cache : PriceCache
  requested : Bool

/-- `fetchTokenPrices` of `chain.ts`.  `resp` is the CoinGecko response for
the one batched request the call makes when some id is missing or stale (a
rejected fetch and a non-ok response are both swallowed by the internal
try/catch and leave the cache unchanged).  `result[id] = priceCache[id]?.price
|| 0` is `getD 0` (a cached price of `0` is falsy and also yields `0`). -/
def fetchTokenPrices (ids : List String) (now : ℤ)
    (resp : FetchOutcome (List (String × ℚ))) (cache : PriceCache) :
    PricesResult :=
  let missingIds := ids.filter fun id =>
    match cache id with
    | none => true
    | some e => decide (now - e.timestamp > PRICE_CACHE_TTL)
  let cache1 : PriceCache :=
    if missingIds.isEmpty then cache
    else
      match resp with
      | .ok data => fun k =>
          match data.lookup k with
          | some p => some { price := p, timestamp := now }
          | none => cache k
      | _ => cache
  { prices := ids.map fun id => (id, ((cache1 id).map PriceEntry.price).getD 0)
    cache := cache1
    requested := !missingIds.isEmpty }

/-- JS `[a-zA-Z0-9]` character class (ASCII, as in the source regexes). -/
def isAlphanumJS (c : Char) : Bool := c.isAlpha || c.isDigit

/-- JS `[a-fA-F0-9]` character class. -/
def isHexDigitJS (c : Char) : Bool :=
  c.isDigit || (('a' ≤ c && c ≤ 'f') || ('A' ≤ c && c ≤ 'F'))

/-- JS `[1-9A-HJ-NP-Za-km-z]` (base58) character class. -/
def isBase58 (c : Char) : Bool :=
  (('1' ≤ c && c ≤ '9') ||
    ((c.isUpper && c != 'I' && c != 'O') || (c.isLower && c != 'l')))

/-- Body of the BTC regex after its prefix: `[a-zA-Z0-9]{25,59}` anchored to
the end. -/
def btcBody (body : List Char) : Bool :=
  decide (25 ≤ body.length) && decide (body.length ≤ 59) && body.all isAlphanumJS

/-- Anchored match of `/^(1|3|bc1)[a-zA-Z0-9]{25,59}$/`: the string starts
with one of the alternation's prefixes and the rest matches the body. -/
def btcRegexTest (l : List Char) : Bool :=
  ((decide (l.take 1 = ['1']) || decide (l.take 1 = ['3'])) && btcBody (l.drop 1)) ||
    (decide (l.take 3 = ['b', 'c', '1']) && btcBody (l.drop 3))

/-- Anchored match of `/^0x[a-fA-F0-9]{40}$/`. -/
def evmRegexTest (l : List Char) : Bool :=
  decide (l.take 2 = ['0', 'x']) &&
    (decide ((l.drop 2).length = 40) && (l.drop 2).all isHexDigitJS)

/-- Anchored match of `/^[1-9A-HJ-NP-Za-km-z]{32,44}$/`. -/
def solRegexTest (l : List Char) : Bool :=
  decide (32 ≤ l.length) && decide (l.length ≤ 44) && l.all isBase58

/-- `isValidAddress` of `chain.ts`: a falsy (empty) address is rejected, then
the chain's regex is applied to the whole string. -/
def isValidAddress (address : String) (chain : Blockchain) : Bool :=
  if address = "" then false
  else
    match chain with
    | .BTC => btcRegexTest address.data
    | .ETH => evmRegexTest address.data
    | .BNB => evmRegexTest address.data
    | .SOL => solRegexTest address.data

/-- JS `String.prototype.toLowerCase()`: lowercase each character. -/
def jsToLower (s : String) : String := String.mk (s.data.map Char.toLower)

/-- JS `someOption || fallback` on a string-valued optional: an absent value
and the empty string (falsy) both yield the fallback. -/
def jsOr (o : Option String) (fallback : String) : String :=
  match o with
  | some s => if s = "" then fallback else s
  | none => fallback

/-- The fresh stats object each fetcher starts from: `balance 0, txCount 0,
firstTxDate = new Date().toISOString(), lastUpdated = Date.now(), history [],
tokens [], latestTransaction undefined`. -/
def defaultStats (now : ℤ) : WalletStats :=
  { balance := 0
    txCount := 0
    firstTxDate := now
    lastUpdated := now
    history := []
    tokens := []
    latestTransaction := none }

/-- A fetch that did not deliver data: the promise rejected or the response
was not ok. -/
def fetchFailed {α : Type} (o : FetchOutcome α) : Prop :=
  o = .threw ∨ o = .notOk

instance {α : Type} [DecidableEq α] (o : FetchOutcome α) :
    Decidable (fetchFailed o) := by
  unfold fetchFailed
  infer_instance

/-- The `chain_stats` / `mempool_stats` sub-objects of the mempool.space
address summary. -/
structure BTCChainStats where
  funded_txo_sum : ℚ
  spent_txo_sum : ℚ
  tx_count : ℤ
  deriving DecidableEq, Repr

/-- The mempool.space address-summary body; either sub-object may be absent
(the source guards every access with `?.` and `|| 0`). -/
structure BTCAddrData where
  chain_stats : Option BTCChainStats
  mempool_stats : Option BTCChainStats
  deriving DecidableEq, Repr

/-- A `prevout` of a mempool.space transaction input; `scriptpubkey_address`
may be absent (non-standard scripts). -/
structure BTCPrevout where
  scriptpubkey_address : Option String
  value : ℚ
  deriving DecidableEq, Repr

/-- One transaction input; `prevout` may be absent (coinbase). -/
structure BTCVin where
  prevout : Option BTCPrevout
  deriving DecidableEq, Repr

/-- One transaction output. -/
structure BTCVout where
  scriptpubkey_address : Option String
  value : ℚ
  deriving DecidableEq, Repr

/-- The `status` object of a mempool.space transaction. -/
structure BTCTxStatus where
  block_time : ℤ
  deriving DecidableEq, Repr

/-- One mempool.space transaction, with the fields the source reads. -/
structure BTCTx where
  txid : String
  vin : List BTCVin
  vout : List BTCVout
  fee : ℚ
  status : BTCTxStatus
  deriving DecidableEq, Repr

/-- The oracle for `fetchBTCStats`'s three network calls: the address summary,
the transaction list, and the CoinGecko response consumed by the inner
`fetchTokenPrices(['bitcoin'])`. -/
structure BTCEnv where
  addrRes : FetchOutcome BTCAddrData
  txRes : FetchOutcome (List BTCTx)
  priceResp : FetchOutcome (List (String × ℚ))
  deriving Repr

/-- The tail of `fetchBTCStats` once the transaction list is known to be
non-empty: classify the latest transaction, price it, and take the first-tx
date from the oldest loaded transaction.  `amount` mirrors the two `reduce`
calls; in the send branch the source reads `inp.prevout.scriptpubkey_address`
without optional chaining, so a missing `prevout` raises a TypeError that the
surrounding catch turns into returning the stats accumulated so far. -/
def btcProcessTxs (address : String) (priceResp : FetchOutcome (List (String × ℚ)))
    (now : ℤ) (cache : PriceCache) (stats : WalletStats)
    (lastTx : BTCTx) (txail : List BTCTx) : WalletStats × PriceCache :=
  let isReceive := lastTx.vout.any fun out =>
    decide (out.scriptpubkey_address = some address)
  let amountOpt : Option ℚ :=
    if isReceive then
      some (lastTx.vout.foldl
        (fun acc out =>
          if out.scriptpubkey_address = some address then acc + out.value else acc)
        0)
    else if lastTx.vin.any fun inp => decide (inp.prevout = none) then none
    else
      some (lastTx.vin.foldl
        (fun acc inp =>
          match inp.prevout with
          | some p =>
              if p.scriptpubkey_address = some address then acc + p.value else acc
          | none => acc)
        0)
  match amountOpt with
  | none => (stats, cache)
  | some amount =>
    let fee : ℚ := if lastTx.fee = 0 then 0 else lastTx.fee / 100000000
    let fromAddr : String :=
      if isReceive then
        jsOr ((lastTx.vin.head?.bind BTCVin.prevout).bind BTCPrevout.scriptpubkey_address)
          "Unknown"
      else address
    let toAddr : String :=
      if isReceive then address
      else
        jsOr ((lastTx.vout.find? fun out =>
            decide (out.scriptpubkey_address ≠ some address)).bind
          BTCVout.scriptpubkey_address) "Multiple/Unknown"
    let pr := fetchTokenPrices ["bitcoin"] now priceResp cache
    let btcPrice : ℚ := (pr.prices.lookup "bitcoin").getD 0
    let oldestLoaded := ((lastTx :: txail).getLast?).getD lastTx
    ({ stats with
        latestTransaction := some
          { hash := lastTx.txid
            timestamp := lastTx.status.block_time * 1000
            type := if isReceive then .receive else .send
            token :=
              { symbol := "BTC"
                name := "Bitcoin"
                balance := 0
                decimals := 8
                contractAddress := "native"
                chain := .BTC
                priceUSD := some btcPrice }
            amount := amount / 100000000
            amountUSD := amount / 100000000 * btcPrice
            fromAddr := fromAddr
            toAddr := toAddr
            fee := fee }
        firstTxDate := oldestLoaded.status.block_time * 1000 },
      pr.cache)

/-- `fetchBTCStats` of `chain.ts`.  An invalid address, a rejected or non-ok
address-summary fetch all return the fresh default stats; a transaction-list
failure returns the stats accumulated up to that point. -/
def fetchBTCStats (address : String) (env : BTCEnv) (now : ℤ)
    (cache : PriceCache) : WalletStats × PriceCache :=
  let stats := defaultStats now
  if !isValidAddress address .BTC then (stats, cache)
  else
    match env.addrRes with
    | .threw => (stats, cache)
    | .notOk => (stats, cache)
    | .ok data =>
      let funded :=
        ((data.chain_stats.map BTCChainStats.funded_txo_sum).getD 0) +
          ((data.mempool_stats.map BTCChainStats.funded_txo_sum).getD 0)
      let spent :=
        ((data.chain_stats.map BTCChainStats.spent_txo_sum).getD 0) +
          ((data.mempool_stats.map BTCChainStats.spent_txo_sum).getD 0)
      let stats :=
        { stats with
            balance := (funded - spent) / 100000000
            txCount :=
              ((data.chain_stats.map BTCChainStats.tx_count).getD 0) +
                ((data.mempool_stats.map BTCChainStats.tx_count).getD 0) }
      match env.txRes with
      | .threw => (stats, cache)
      | .notOk => (stats, cache)
      | .ok txData =>
        match txData with
        | [] => (stats, cache)
        | lastTx :: txail =>
            btcProcessTxs address env.priceResp now cache stats lastTx txail

/-- The Etherscan/BscScan `balance` response body: `status` and the balance in
wei (`parseFloat(balData.result)` carried as a rational). -/
structure EVMBalanceResp where
  status : String
  result : ℚ
  deriving DecidableEq, Repr

/-- One Etherscan transaction with the fields the source reads (numeric
strings carried already parsed; `from`/`to` are named `fromAddr`/`toAddr`,
both being Lean keywords). -/
structure EVMTx where
  nonce : ℤ
  gasUsed : ℚ
  gasPrice : ℚ
  hash : String
  timeStamp : ℤ
  value : ℚ
  fromAddr : String
  toAddr : String
  deriving DecidableEq, Repr

/-- An Etherscan `txlist` response body. -/
structure EVMTxListResp where
  status : String
  result : List EVMTx
  deriving DecidableEq, Repr

/-- The oracle for `fetchEVMStats`'s four network calls. -/
structure EVMEnv where
  balRes : FetchOutcome EVMBalanceResp
  priceResp : FetchOutcome (List (String × ℚ))
  txRes : FetchOutcome EVMTxListResp
  firstTxRes : FetchOutcome EVMTxListResp
  deriving Repr

/-- Ticker string of the `Blockchain` enum value (the TS enum values are the
chain names themselves). -/
def chainTicker : Blockchain → String
  | .BTC => "BTC"
  | .ETH => "ETH"
  | .SOL => "SOL"
  | .BNB => "BNB"

/-- Step 4 of `fetchEVMStats`: the ascending-sorted `txlist` call that sets
`firstTxDate` from the oldest transaction. -/
def evmFirstTx (env : EVMEnv) (cache : PriceCache) (stats : WalletStats) :
    WalletStats × PriceCache :=
  match env.firstTxRes with
  | .threw => (stats, cache)
  | .notOk => (stats, cache)
  | .ok firstTxData =>
    match firstTxData.result with
    | [] => (stats, cache)
    | firstTx :: _ =>
        if firstTxData.status = "1" then
          ({ stats with firstTxDate := firstTx.timeStamp * 1000 }, cache)
        else (stats, cache)

/-- Step 3 of `fetchEVMStats`: the descending-sorted `txlist` call that sets
`txCount = nonce + 1` and the latest-transaction summary, then step 4. -/
def evmLatestTx (address : String) (chain : Blockchain) (env : EVMEnv)
    (cache : PriceCache) (nativePrice : ℚ) (stats : WalletStats) :
    WalletStats × PriceCache :=
  match env.txRes with
  | .threw => (stats, cache)
  | .notOk => evmFirstTx env cache stats
  | .ok txData =>
    match txData.result with
    | [] => evmFirstTx env cache stats
    | tx :: _ =>
        if txData.status = "1" then
          let fee := tx.gasUsed * tx.gasPrice / 1000000000000000000
          let stats :=
            { stats with
                txCount := tx.nonce + 1
                latestTransaction := some
                  { hash := tx.hash
                    timestamp := tx.timeStamp * 1000
                    type :=
                      if jsToLower tx.toAddr = jsToLower address then .receive
                      else .send
                    token :=
                      { symbol := chainTicker chain
                        name := if chain = .ETH then "Ethereum" else "BNB Chain"
                        balance := 0
                        decimals := 18
                        contractAddress := "native"
                        chain := chain
                        priceUSD := some nativePrice }
                    amount := tx.value / 1000000000000000000
                    amountUSD := tx.value / 1000000000000000000 * nativePrice
                    fromAddr := tx.fromAddr
                    toAddr := tx.toAddr
                    fee := fee } }
          evmFirstTx env cache stats
        else evmFirstTx env cache stats

/-- Step 2 of `fetchEVMStats`: resolve the native price through the cache,
then the two transaction-list calls. -/
def evmAfterBal (address : String) (chain : Blockchain) (env : EVMEnv)
    (now : ℤ) (cache : PriceCache) (stats : WalletStats) :
    WalletStats × PriceCache :=
  let cgId := getCoingeckoId chain
  let pr := fetchTokenPrices [cgId] now env.priceResp cache
  let nativePrice : ℚ := (pr.prices.lookup cgId).getD 0
  evmLatestTx address chain env pr.cache nativePrice stats

/-- `fetchEVMStats` of `chain.ts`: balance call, price lookup, latest- and
first-transaction calls.  A rejected fetch at any step returns (through the
surrounding catch) the stats accumulated so far; a non-ok response merely
skips the step. -/
def fetchEVMStats (address : String) (chain : Blockchain) (env : EVMEnv)
    (now : ℤ) (cache : PriceCache) : WalletStats × PriceCache :=
  let stats := defaultStats now
  if !isValidAddress address chain then (stats, cache)
  else
    match env.balRes with
    | .threw => (stats, cache)
    | .notOk => evmAfterBal address chain env now cache stats
    | .ok balData =>
        evmAfterBal address chain env now cache
          (if balData.status = "1" then
            { stats with balance := balData.result / 1000000000000000000 }
          else stats)

/-- The Solana `getBalance` response: `balData.result?.value` may be absent. -/
structure SolBalanceResp where
  result_value : Option ℚ
  deriving DecidableEq, Repr

/-- One entry of `getSignaturesForAddress`; `blockTime` may be absent. -/
structure SolSig where
  signature : String
  blockTime : Option ℤ
  deriving DecidableEq, Repr

/-- The `getSignaturesForAddress` response: `sigData.result` may be absent. -/
structure SolSigResp where
  result : Option (List SolSig)
  deriving DecidableEq, Repr

/-- One parsed token account of `getTokenAccountsByOwner`: the fields read
from `t.account.data.parsed.info`. -/
structure SolTokenAccount where
  uiAmount : ℚ
  decimals : ℕ
  mint : String
  deriving DecidableEq, Repr

/-- The `getTokenAccountsByOwner` response: `tokenData.result?.value` may be
absent. -/
structure SolTokenResp where
  result_value : Option (List SolTokenAccount)
  deriving DecidableEq, Repr

/-- The oracle for `fetchSolanaStats`'s four network calls. -/
structure SolEnv where
  balRes : FetchOutcome SolBalanceResp
  priceResp : FetchOutcome (List (String × ℚ))
  sigRes : FetchOutcome SolSigResp
  tokenRes : FetchOutcome SolTokenResp
  deriving Repr

/-- Step 4 of `fetchSolanaStats`: the SPL token accounts; amounts under 0.01
are dropped and the list is capped at 10 (`map` to null, `filter`, `slice`). -/
def solTokens (env : SolEnv) (cache : PriceCache) (stats : WalletStats) :
    WalletStats × PriceCache :=
  match env.tokenRes with
  | .threw => (stats, cache)
  | .notOk => (stats, cache)
  | .ok tokenData =>
    match tokenData.result_value with
    | none => (stats, cache)
    | some accounts =>
        ({ stats with
            tokens :=
              (accounts.filterMap fun t =>
                if t.uiAmount < 1 / 100 then none
                else some
                  { symbol := "SPL"
                    name := "Solana Token"
                    balance := t.uiAmount
                    decimals := t.decimals
                    contractAddress := t.mint
                    chain := Blockchain.SOL }).take 10 },
          cache)

/-- Step 3 of `fetchSolanaStats`: the one-signature activity probe.  When a
signature exists, `txCount` is set to the hardcoded placeholder `100` and a
placeholder latest transaction is recorded (`type 'send'`, amount 0, fee
0.000005); `tx.blockTime ? tx.blockTime * 1000 : Date.now()` keeps JS
truthiness, so an absent or zero `blockTime` falls back to now. -/
def solSignatures (address : String) (env : SolEnv) (now : ℤ)
    (cache : PriceCache) (solPrice : ℚ) (stats : WalletStats) :
    WalletStats × PriceCache :=
  match env.sigRes with
  | .threw => (stats, cache)
  | .notOk => solTokens env cache stats
  | .ok sigData =>
    match sigData.result with
    | none => solTokens env cache stats
    | some [] => solTokens env cache stats
    | some (tx :: _) =>
        let stats :=
          { stats with
              txCount := 100
              latestTransaction := some
                { hash := tx.signature
                  timestamp :=
                    match tx.blockTime with
                    | some bt => if bt = 0 then now else bt * 1000
                    | none => now
                  type := .send
                  token :=
                    { symbol := "SOL"
                      name := "Solana"
                      balance := 0
                      decimals := 9
                      contractAddress := "native"
                      chain := .SOL
                      priceUSD := some solPrice }
                  amount := 0
                  amountUSD := 0
                  fromAddr := address
                  toAddr := "Solana Program/Wallet"
                  fee := 5 / 1000000 } }
        solTokens env cache stats

/-- Step 2 of `fetchSolanaStats`: resolve the SOL price, then signatures and
tokens. -/
def solAfterBal (address : String) (env : SolEnv) (now : ℤ)
    (cache : PriceCache) (stats : WalletStats) : WalletStats × PriceCache :=
  let pr := fetchTokenPrices ["solana"] now env.priceResp cache
  let solPrice : ℚ := (pr.prices.lookup "solana").getD 0
  solSignatures address env now pr.cache solPrice stats

/-- `fetchSolanaStats` of `chain.ts`: balance, price, signatures, SPL tokens.
A rejected fetch returns (through the catch) the stats accumulated so far; a
non-ok response skips its step.  `firstTxDate` is never assigned after the
initialisation. -/
def fetchSolanaStats (address : String) (env : SolEnv) (now : ℤ)
    (cache : PriceCache) : WalletStats × PriceCache :=
  let stats := defaultStats now
  if !isValidAddress address .SOL then (stats, cache)
  else
    match env.balRes with
    | .threw => (stats, cache)
    | .notOk => solAfterBal address env now cache stats
    | .ok balData =>
        solAfterBal address env now cache
          { stats with balance := (balData.result_value.getD 0) / 1000000000 }

/-- `24 * 60 * 60 * 1000`, the day step of the history loop. -/
def MS_PER_DAY : ℤ := 24 * 60 * 60 * 1000

/-- The calendar day index of a millisecond timestamp: what
`new Date(ms).toISOString().split('T')[0]` encodes (Lean's `Int` division is
Euclidean, which for the positive divisor is floor division, matching the UTC
calendar). -/
def jsDay (ms : ℤ) : ℤ := ms / 86400000

/-- The oracle for one `fetchWalletStats` call: the clock, the successive
`Math.random()` draws of the history loop, and the per-chain fetch oracles
(only the dispatched chain's part is consulted). -/
structure AggEnv where
  now : ℤ
  rand : ℕ → ℚ
  btc : BTCEnv
  evm : EVMEnv
  sol : SolEnv

/-- One iteration of the history loop, day index `i`: unshift the entry for
`Date.now() - i * 24*60*60*1000` valued `Math.max(0, simulatedVal)`, then
divide the running value by the random daily factor
`1 + (Math.random() * 0.1 - 0.05)`. -/
def histStep (now : ℤ) (rand : ℕ → ℚ) (s : ℚ × List HistoryEntry) (i : ℕ) :
    ℚ × List HistoryEntry :=
  let entry : HistoryEntry :=
    { date := jsDay (now - (i : ℤ) * MS_PER_DAY), value := max 0 s.1 }
  let change : ℚ := 1 + (rand i * (1 / 10) - 1 / 20)
  (s.1 / change, entry :: s.2)

/-- The 365-iteration history loop of `fetchWalletStats`, started from the
real current USD value and walking backwards. -/
def generateHistory (now : ℤ) (rand : ℕ → ℚ) (current : ℚ) :
    List HistoryEntry :=
  ((List.range 365).foldl (histStep now rand) (current, [])).2

/-- `history[history.length - 1].value = currentTotalValueUSD`: overwrite the
value of the last entry. -/
def forceLastValue (v : ℚ) : List HistoryEntry → List HistoryEntry
  | [] => []
  | [e] => [{ e with value := v }]
  | e :: e2 :: rest => e :: forceLastValue v (e2 :: rest)

/-- The router of `fetchWalletStats`: BTC and SOL to their fetchers,
everything else (ETH, BNB) to the EVM fetcher. -/
def dispatchFetch (address : String) (chain : Blockchain) (env : AggEnv)
    (cache : PriceCache) : WalletStats × PriceCache :=
  match chain with
  | .BTC => fetchBTCStats address env.btc env.now cache
  | .SOL => fetchSolanaStats address env.sol env.now cache
  | _ => fetchEVMStats address chain env.evm env.now cache

/-- The history-generation tail of `fetchWalletStats`: anchor on
`stats.balance * (priceCache[coingeckoId]?.price || 0)`, synthesize the
365-day history, force the final entry back to the exact current value, and
flag the history as simulated. -/
def applyHistory (chain : Blockchain) (env : AggEnv)
    (r : WalletStats × PriceCache) : WalletStats × PriceCache :=
  let currentTotalValueUSD :=
    r.1.balance * ((r.2 (getCoingeckoId chain)).map PriceEntry.price).getD 0
  ({ r.1 with
      history :=
        forceLastValue currentTotalValueUSD
          (generateHistory env.now env.rand currentTotalValueUSD)
      isSimulatedHistory := true },
    r.2)

/-- `fetchWalletStats` of `chain.ts`: dispatch, then synthesize the history. -/
def fetchWalletStats (address : String) (chain : Blockchain) (env : AggEnv)
    (cache : PriceCache) : WalletStats × PriceCache :=
  applyHistory chain env (dispatchFetch address chain env cache)

/-- `SocialLinks` of `types.ts`. -/
structure SocialLinks where
  twitter : Option String := none
  instagram : Option String := none
  threads : Option String := none
  reddit : Option String := none
  deriving DecidableEq, Repr

/-- `UserProfile` of `types.ts`. -/
structure UserProfile where
  id : String
  username : String
  address : String
  chain : Blockchain
  createdAt : ℤ
  logoUrl : Option String := none
  socials : Option SocialLinks := none
  cachedStats : Option WalletStats := none
  deriving DecidableEq, Repr

/-- A Supabase error object with the fields the source reads. -/
structure StorageError where
  message : String
  details : String := ""
  code : String := ""
  deriving DecidableEq, Repr

/-- Outcome of one awaited Supabase query: the await itself threw (connection
exception), it resolved with an `error`, or it resolved with `data`. -/
inductive SupabaseResult (α : Type)
  | exn (msg : String)
  | err (e : StorageError)
  | ok (data : α)
  deriving DecidableEq, Repr

/-- One row of the `profiles` table as the queries return it. -/
structure ProfileRow where
  id : String
  username : String
  address : String
  chain : Blockchain
  created_at : ℤ
  logo_url : Option String
  socials : SocialLinks
  deriving DecidableEq, Repr

/-- `storageService.getAllProfiles`: map rows to the profile shape; a resolved
error is logged and yields `[]`, a connection exception is caught and yields
`[]`.  The `Except` result records that the function itself never throws. -/
def getAllProfiles (env : SupabaseResult (List ProfileRow)) :
    Except String (List UserProfile) :=
  match env with
  | .exn _ => .ok []
  | .err _ => .ok []
  | .ok rows => .ok (rows.map fun row =>
      { id := row.id
        username := row.username
        address := row.address
        chain := row.chain
        createdAt := row.created_at
        logoUrl := row.logo_url
        socials := some row.socials
        cachedStats := none })

/-- `storageService.getProfileByUsername`: a resolved error (including the
expected `PGRST116` no-rows code) or an exception yields `undefined`; the
data row, when present, is mapped to the profile shape. -/
def getProfileByUsername (env : SupabaseResult (Option ProfileRow))
    (username : String) : Except String (Option UserProfile) :=
  match env with
  | .exn _ => .ok none
  | .err _ => .ok none
  | .ok none => .ok none
  | .ok (some row) => .ok (some
      { id := row.id
        username := row.username
        address := row.address
        chain := row.chain
        createdAt := row.created_at
        logoUrl := row.logo_url
        socials := some row.socials })

/-- The caller-supplied fields of `createProfile`
(`Omit<UserProfile, 'id' | 'createdAt'>`). -/
structure CreateProfileInput where
  username : String
  address : String
  chain : Blockchain
  logoUrl : Option String := none
  socials : Option SocialLinks := none
  deriving DecidableEq, Repr

/-- One `Math.random()` draw, represented by the base-36 fraction digits that
`Number.prototype.toString(36)` prints for it: the empty list stands for the
draw `0` (printed `"0"`), a non-empty list for `"0."` followed by those
digits.  A double in `[0,1)` always has a finite base-36 expansion (36 is
even), so this representation is exact. -/
abbrev RandomDraw : Type := List (Fin 36)

/-- The character toString(36) prints for one base-36 digit: `0-9` then
`a-z`. -/
def base36Char (d : Fin 36) : Char :=
  if d.val < 10 then Char.ofNat (48 + d.val) else Char.ofNat (87 + d.val)

/-- `Math.random().toString(36).substr(2, 9)`: strip the `"0."` and keep at
most nine fraction digits (the draw `0` prints `"0"`, whose `substr(2, 9)` is
empty). -/
def jsRandomId (digits : RandomDraw) : String :=
  String.mk ((digits.take 9).map base36Char)

/-- `profile.logoUrl || null`: an absent or empty (falsy) logo becomes null. -/
def jsOrNull (o : Option String) : Option String :=
  match o with
  | some s => if s = "" then none else some s
  | none => none

/-- `storageService.createProfile`: build the row (client-side random id,
current time), insert it.  A resolved storage error is rethrown as
`new Error(error.message || 'Failed to create profile')`; there is no
try/catch, so an awaited exception propagates as well.  On success
`insert().select().single()` echoes the inserted row, which the source maps
back to the profile shape. -/
def createProfile (profile : CreateProfileInput) (digits : RandomDraw)
    (now : ℤ) (env : SupabaseResult Unit) : Except String UserProfile :=
  let newProfile : ProfileRow :=
    { id := jsRandomId digits
      username := profile.username
      address := profile.address
      chain := profile.chain
      created_at := now
      logo_url := jsOrNull profile.logoUrl
      socials := profile.socials.getD {} }
  match env with
  | .exn msg => .error msg
  | .err e => .error (if e.message = "" then "Failed to create profile" else e.message)
  | .ok _ => .ok
      { id := newProfile.id
        username := newProfile.username
        address := newProfile.address
        chain := newProfile.chain
        createdAt := newProfile.created_at
        logoUrl := newProfile.logo_url
        socials := some newProfile.socials }

/-- The result of the Solana provider's `signMessage`: the `signature` field
is absent (falsy) or a bytes object (truthy, even when empty). -/
structure SolSignedMessage where
  signature : Option (List ℕ)
  deriving DecidableEq, Repr

/-- The oracle for `walletService.signSolana`: whether a provider is injected
and how its `signMessage` resolves. -/
structure SolSignEnv where
  providerPresent : Bool
  signOutcome : Except Unit SolSignedMessage

/-- `walletService.signSolana`: no cryptographic check is performed — the
function returns `!!signedMessage.signature`.  A missing provider throws
"Wallet disconnected."; a rejected `signMessage` is rethrown as "Signature
rejected.". -/
def signSolana (address message : String) (env : SolSignEnv) :
    Except String Bool :=
  if !env.providerPresent then .error "Wallet disconnected."
  else
    match env.signOutcome with
    | .error _ => .error "Signature rejected."
    | .ok signedMessage => .ok signedMessage.signature.isSome

/-- The oracle for `walletService.signEVM`: whether `window.ethereum` exists,
how `getSigner()`/`getAddress()` resolve (the signer's address), how
`signMessage` resolves (the signature string), and the pure
`ethers.verifyMessage` recovery function on (message, signature). -/
structure EVMSignEnv where
  ethereumPresent : Bool
  signerOutcome : Except Unit String
  signOutcome : Except Unit String
  recover : String → String → String

/-- `walletService.signEVM`: a missing provider throws "Wallet
disconnected."; inside the try, a signer rejection, a signer/expected address
mismatch (the thrown "Wallet mismatch" error) and a `signMessage` rejection
are all caught and rethrown as "Signature rejected or failed.";  otherwise the
address recovered from the signature is compared case-insensitively to the
expected address and the boolean is returned. -/
def signEVM (address message : String) (env : EVMSignEnv) :
    Except String Bool :=
  if !env.ethereumPresent then .error "Wallet disconnected."
  else
    match env.signerOutcome with
    | .error _ => .error "Signature rejected or failed."
    | .ok signerAddress =>
        if jsToLower signerAddress ≠ jsToLower address then
          .error "Signature rejected or failed."
        else
          match env.signOutcome with
          | .error _ => .error "Signature rejected or failed."
          | .ok signature =>
              .ok (decide (jsToLower (env.recover message signature) = jsToLower address))

/-- The spec's BTC pattern, written from the spec's words rather than from the
source regex: a legacy (`1`), P2SH (`3`) or bech32 (`bc1`) prefix followed by
25 to 59 alphanumeric characters. -/
def specBTCPattern (address : String) : Prop :=
  (∃ body, address.data = '1' :: body ∧ 25 ≤ body.length ∧ body.length ≤ 59 ∧
      ∀ c ∈ body, isAlphanumJS c = true) ∨
  (∃ body, address.data = '3' :: body ∧ 25 ≤ body.length ∧ body.length ≤ 59 ∧
      ∀ c ∈ body, isAlphanumJS c = true) ∨
  (∃ body, address.data = 'b' :: 'c' :: '1' :: body ∧ 25 ≤ body.length ∧
      body.length ≤ 59 ∧ ∀ c ∈ body, isAlphanumJS c = true)

/-- The spec's EVM pattern: `0x` followed by exactly 40 hex digits. -/
def specEVMPattern (address : String) : Prop :=
  ∃ body, address.data = '0' :: 'x' :: body ∧ body.length = 40 ∧
    ∀ c ∈ body, isHexDigitJS c = true

/-- The spec's SOL pattern: 32 to 44 characters of the base58 alphabet. -/
def specSOLPattern (address : String) : Prop :=
  32 ≤ address.length ∧ address.length ≤ 44 ∧ ∀ c ∈ address.data, isBase58 c = true

/-- The spec's per-chain fixed pattern, as claimed for `isValidAddress`. -/
def specAddressPattern (address : String) (chain : Blockchain) : Prop :=
  match chain with
  | .BTC => specBTCPattern address
  | .ETH => specEVMPattern address
  | .BNB => specEVMPattern address
  | .SOL => specSOLPattern address

/-- The running simulated value before iteration `n` of the history loop:
`valAt 0` is the real current value, and each iteration divides by the daily
factor. -/
def valAt (rand : ℕ → ℚ) (current : ℚ) : ℕ → ℚ
  | 0 => current
  | n + 1 => valAt rand current n / (1 + (rand n * (1 / 10) - 1 / 20))

/-- The history list after `n` iterations of the loop (oldest day first, most
recent day last). -/
def histList (now : ℤ) (rand : ℕ → ℚ) (current : ℚ) : ℕ → List HistoryEntry
  | 0 => []
  | n + 1 =>
      { date := jsDay (now - (n : ℤ) * MS_PER_DAY)
        value := max 0 (valAt rand current n) } ::
        histList now rand current n

/-- A valid EVM address used as a concrete test input. -/
def evmAddrA : String := "0xaaaaaaaaaaaaaaaaaaaaaaaaaaaaaaaaaaaaaaaa"

/-- A concrete environment in which the EVM balance call succeeds with a
1-ether balance and the latest-transaction call then fails on the network. -/
def evmEnvPartialFail : EVMEnv :=
  { balRes := .ok { status := "1", result := 1000000000000000000 }
    priceResp := .notOk
    txRes := .threw
    firstTxRes := .notOk }

/-- A concrete BTC environment in which every request fails. -/
def btcEnvAllFail : BTCEnv :=
  { addrRes := .threw, txRes := .threw, priceResp := .threw }

/-- A valid BTC (legacy) address used as a concrete test input. -/
def btcAddrA : String := "1BvBMSEYstWetqTFn5Au4m4GFg7xJaNVN2"

/-- A valid SOL address used as a concrete test input (the system program). -/
def solAddrA : String := "11111111111111111111111111111111"

/-- A concrete Solana environment whose signature probe returns one
signature (everything else fails or is empty). -/
def solEnvOneSig : SolEnv :=
  { balRes := .notOk
    priceResp := .notOk
    sigRes := .ok { result := some [{ signature := "sig1", blockTime := some 1700000000 }] }
    tokenRes := .notOk }

/-- A concrete BTC transaction that spends from `btcAddrA` and also pays
`btcAddrA` in its outputs (a self-transfer with change): the address appears
among both the inputs and the outputs. -/
def btcSelfTx : BTCTx :=
  { txid := "selftx"
    vin := [{ prevout := some { scriptpubkey_address := some btcAddrA, value := 50000 } }]
    vout :=
      [{ scriptpubkey_address := some btcAddrA, value := 30000 },
        { scriptpubkey_address := some "1CounterpartyXXXXXXXXXXXXXXXUWLpVr", value := 15000 }]
    fee := 5000
    status := { block_time := 1600000000 } }

/-- A concrete BTC environment returning `btcSelfTx` as the latest
transaction. -/
def btcEnvSelf : BTCEnv :=
  { addrRes := .ok { chain_stats := some { funded_txo_sum := 80000, spent_txo_sum := 50000, tx_count := 2 }, mempool_stats := none }
    txRes := .ok [btcSelfTx]
    priceResp := .notOk }

/-- A concrete profile-creation input used as a test input. -/
def inputA : CreateProfileInput :=
  { username := "alice_1"
    address := "0xABCDEF0123456789abcdef0123456789ABCDEF01"
    chain := Blockchain.ETH }

/-- The profile `createProfile inputA [10] 5 (.ok ())` returns: random draw
with first base-36 digit 10 prints `a`, so the id is `"a"`. -/
def profileA : UserProfile :=
  { id := "a"
    username := "alice_1"
    address := "0xABCDEF0123456789abcdef0123456789ABCDEF01"
    chain := Blockchain.ETH
    createdAt := 5
    logoUrl := none
    socials := some {} }

/-- The profile `createProfile inputA [11] 7 (.ok ())` returns (first digit
11 prints `b`). -/
def profileB : UserProfile :=
  { id := "b"
    username := "alice_1"
    address := "0xABCDEF0123456789abcdef0123456789ABCDEF01"
    chain := Blockchain.ETH
    createdAt := 7
    logoUrl := none
    socials := some {} }

/-- A concrete Solana signing environment whose provider resolves with a
signature object the expected address cannot have produced (three arbitrary
bytes). -/
def solSignEnvA : SolSignEnv :=
  { providerPresent := true
    signOutcome := .ok { signature := some [1, 2, 3] } }

/-- A concrete EVM signing environment: the signer address matches the
expected address up to case, signing succeeds, and the recovered address is a
different one. -/
def evmSignEnvA : EVMSignEnv :=
  { ethereumPresent := true
    signerOutcome := .ok "0xAAAAAAAAAAAAAAAAAAAAAAAAAAAAAAAAAAAAAAAA"
    signOutcome := .ok "0xsig"
    recover := fun _ _ => "0xbbbbbbbbbbbbbbbbbbbbbbbbbbbbbbbbbbbbbbbb" }

/-! Helper lemmas about the history loop. -/

theorem foldl_histStep_eq (now : ℤ) (rand : ℕ → ℚ) (current : ℚ) (n : ℕ) :
    (List.range n).foldl (histStep now rand) (current, []) =
      (valAt rand current n, histList now rand current n) := by
  induction n with
  | zero => rfl
  | succ n ih =>
      rw [List.range_succ, List.foldl_append, ih]
      rfl

theorem generateHistory_eq_histList (now : ℤ) (rand : ℕ → ℚ) (current : ℚ) :
    generateHistory now rand current = histList now rand current 365 := by
  unfold generateHistory
  rw [foldl_histStep_eq]

theorem histList_length (now : ℤ) (rand : ℕ → ℚ) (current : ℚ) (n : ℕ) :
    (histList now rand current n).length = n := by
  induction n with
  | zero => rfl
  | succ n ih => simp [histList, ih]

theorem jsDay_add_day (y : ℤ) : jsDay (y + MS_PER_DAY) = jsDay y + 1 := by
  unfold jsDay MS_PER_DAY
  have h := Int.add_mul_ediv_right y 1 (c := 86400000) (by norm_num)
  norm_num at h ⊢
  omega

theorem histList_getLast? (now : ℤ) (rand : ℕ → ℚ) (current : ℚ) (n : ℕ) :
    (histList now rand current (n + 1)).getLast? =
      some { date := jsDay now, value := max 0 current } := by
  induction n with
  | zero => simp [histList, valAt, jsDay]
  | succ n ih =>
      rw [show histList now rand current (n + 1 + 1) =
          ({ date := jsDay (now - ((n + 1 : ℕ) : ℤ) * MS_PER_DAY),
             value := max 0 (valAt rand current (n + 1)) } : HistoryEntry) ::
            ({ date := jsDay (now - (n : ℤ) * MS_PER_DAY),
               value := max 0 (valAt rand current n) } : HistoryEntry) ::
            histList now rand current n from rfl]
      rw [List.getLast?_cons_cons]
      exact ih

theorem histList_head? (now : ℤ) (rand : ℕ → ℚ) (current : ℚ) (n : ℕ) :
    (histList now rand current (n + 1)).head? =
      some { date := jsDay (now - (n : ℤ) * MS_PER_DAY),
             value := max 0 (valAt rand current n) } := rfl

theorem histList_chain (now : ℤ) (rand : ℕ → ℚ) (current : ℚ) (n : ℕ) :
    List.Chain' (fun a b => b.date = a.date + 1) (histList now rand current n) := by
  induction n with
  | zero => simp [histList]
  | succ n ih =>
      rw [show histList now rand current (n + 1) =
          ({ date := jsDay (now - (n : ℤ) * MS_PER_DAY),
             value := max 0 (valAt rand current n) } : HistoryEntry) ::
            histList now rand current n from rfl]
      refine List.chain'_cons'.mpr ⟨?_, ih⟩
      intro b hb
      cases n with
      | zero => simp [histList] at hb
      | succ m =>
          rw [histList_head?] at hb
          cases hb
          show jsDay (now - (m : ℤ) * MS_PER_DAY) =
            jsDay (now - ((m + 1 : ℕ) : ℤ) * MS_PER_DAY) + 1
          have harg : now - (m : ℤ) * MS_PER_DAY =
              (now - ((m + 1 : ℕ) : ℤ) * MS_PER_DAY) + MS_PER_DAY := by
            push_cast
            ring
          rw [harg, jsDay_add_day]

theorem forceLastValue_length (v : ℚ) (l : List HistoryEntry) :
    (forceLastValue v l).length = l.length := by
  induction l with
  | nil => rfl
  | cons e tail ih =>
      cases tail with
      | nil => rfl
      | cons e2 rest => simpa [forceLastValue] using ih

theorem forceLastValue_map_date (v : ℚ) (l : List HistoryEntry) :
    (forceLastValue v l).map HistoryEntry.date = l.map HistoryEntry.date := by
  induction l with
  | nil => rfl
  | cons e tail ih =>
      cases tail with
      | nil => rfl
      | cons e2 rest => simpa [forceLastValue] using ih

theorem forceLastValue_ne_nil (v : ℚ) (e : HistoryEntry) (l : List HistoryEntry) :
    forceLastValue v (e :: l) ≠ [] := by
  cases l <;> simp [forceLastValue]

theorem forceLastValue_getLast? (v : ℚ) (l : List HistoryEntry) :
    (forceLastValue v l).getLast? =
      l.getLast?.map fun e => { e with value := v } := by
  induction l with
  | nil => rfl
  | cons e tail ih =>
      cases tail with
      | nil => rfl
      | cons e2 rest =>
          obtain ⟨x, xs, hx⟩ : ∃ x xs, forceLastValue v (e2 :: rest) = x :: xs := by
            cases rest <;> exact ⟨_, _, rfl⟩
          rw [show forceLastValue v (e :: e2 :: rest) =
              e :: forceLastValue v (e2 :: rest) from rfl]
          rw [hx, List.getLast?_cons_cons, ← hx, ih, List.getLast?_cons_cons]

theorem applyHistory_spec (chain : Blockchain) (env : AggEnv)
    (r : WalletStats × PriceCache) :
    (applyHistory chain env r).1.history.length = 365 ∧
    List.Chain' (fun a b => b.date = a.date + 1) (applyHistory chain env r).1.history ∧
    ((applyHistory chain env r).1.history.getLast?).map HistoryEntry.value =
      some ((applyHistory chain env r).1.balance *
        (((applyHistory chain env r).2 (getCoingeckoId chain)).map PriceEntry.price).getD 0) ∧
    (applyHistory chain env r).1.isSimulatedHistory = true := by
  unfold applyHistory
  simp only []
  refine ⟨?_, ?_, ?_, by trivial⟩
  · rw [forceLastValue_length, generateHistory_eq_histList, histList_length]
  · have hmap :
        (forceLastValue
            (r.1.balance * ((r.2 (getCoingeckoId chain)).map PriceEntry.price).getD 0)
            (generateHistory env.now env.rand
              (r.1.balance * ((r.2 (getCoingeckoId chain)).map PriceEntry.price).getD 0))).map
          HistoryEntry.date =
          (generateHistory env.now env.rand
            (r.1.balance * ((r.2 (getCoingeckoId chain)).map PriceEntry.price).getD 0)).map
            HistoryEntry.date := forceLastValue_map_date _ _
    rw [← List.chain'_map (f := HistoryEntry.date)
        (R := fun a b : ℤ => b = a + 1)]
    rw [hmap]
    rw [List.chain'_map (f := HistoryEntry.date) (R := fun a b : ℤ => b = a + 1)]
    rw [generateHistory_eq_histList]
    exact histList_chain _ _ _ _
  · rw [forceLastValue_getLast?, generateHistory_eq_histList]
    rw [show (365 : ℕ) = 364 + 1 from rfl, histList_getLast?]
    rfl

/-- C1: for every address and chain, the history `fetchWalletStats` returns
has exactly 365 entries, its dates ascend one day at a time with no gaps, its
final (most recent) entry's value is exactly the computed current USD value —
the fetched balance times the cached native price — and the result is flagged
with `isSimulatedHistory = true`. -/
theorem fetchWalletStats_history_spec (address : String) (chain : Blockchain)
    (env : AggEnv) (cache : PriceCache) :
    (fetchWalletStats address chain env cache).1.history.length = 365 ∧
    List.Chain' (fun a b => b.date = a.date + 1)
      (fetchWalletStats address chain env cache).1.history ∧
    ((fetchWalletStats address chain env cache).1.history.getLast?).map
        HistoryEntry.value =
      some ((fetchWalletStats address chain env cache).1.balance *
        (((fetchWalletStats address chain env cache).2
            (getCoingeckoId chain)).map PriceEntry.price).getD 0) ∧
    (fetchWalletStats address chain env cache).1.isSimulatedHistory = true := by
  unfold fetchWalletStats
  exact applyHistory_spec chain env (dispatchFetch address chain env cache)

/-! Helper lemmas about anchored prefix matching. -/

theorem take_one_eq_iff (l : List Char) (a : Char) :
    l.take 1 = [a] ↔ ∃ t, l = a :: t := by
  cases l with
  | nil => simp
  | cons c t =>
      simp only [List.take_succ_cons, List.take_zero, List.cons.injEq, and_true]
      constructor
      · rintro rfl; exact ⟨t, rfl, rfl⟩
      · rintro ⟨t2, h1, _⟩; exact h1

theorem take_two_eq_iff (l : List Char) (a b : Char) :
    l.take 2 = [a, b] ↔ ∃ t, l = a :: b :: t := by
  match l with
  | [] => simp
  | [x] => simp [List.take]
  | x :: y :: t =>
      simp only [List.take_succ_cons, List.take_zero, List.cons.injEq, and_true]
      constructor
      · rintro ⟨rfl, rfl⟩; exact ⟨t, rfl, rfl, rfl⟩
      · rintro ⟨t2, h1, h2, _⟩; exact ⟨h1, h2⟩

theorem take_three_eq_iff (l : List Char) (a b c : Char) :
    l.take 3 = [a, b, c] ↔ ∃ t, l = a :: b :: c :: t := by
  match l with
  | [] => simp
  | [x] => simp [List.take]
  | [x, y] => simp [List.take]
  | x :: y :: z :: t =>
      simp only [List.take_succ_cons, List.take_zero, List.cons.injEq, and_true]
      constructor
      · rintro ⟨rfl, rfl, rfl⟩; exact ⟨t, rfl, rfl, rfl, rfl⟩
      · rintro ⟨t2, h1, h2, h3, _⟩; exact ⟨h1, h2, h3⟩

theorem btcRegexTest_iff (l : List Char) :
    btcRegexTest l = true ↔
      ((∃ body, l = '1' :: body ∧ 25 ≤ body.length ∧ body.length ≤ 59 ∧
          ∀ c ∈ body, isAlphanumJS c = true) ∨
       (∃ body, l = '3' :: body ∧ 25 ≤ body.length ∧ body.length ≤ 59 ∧
          ∀ c ∈ body, isAlphanumJS c = true) ∨
       (∃ body, l = 'b' :: 'c' :: '1' :: body ∧ 25 ≤ body.length ∧
          body.length ≤ 59 ∧ ∀ c ∈ body, isAlphanumJS c = true)) := by
  simp only [btcRegexTest, btcBody, Bool.or_eq_true, Bool.and_eq_true,
    decide_eq_true_eq, List.all_eq_true, take_one_eq_iff, take_three_eq_iff]
  constructor
  · rintro (⟨(⟨t, rfl⟩ | ⟨t, rfl⟩), h⟩ | ⟨⟨t, rfl⟩, h⟩)
    · exact Or.inl ⟨t, rfl, by simpa [and_assoc] using h⟩
    · exact Or.inr (Or.inl ⟨t, rfl, by simpa [and_assoc] using h⟩)
    · exact Or.inr (Or.inr ⟨t, rfl, by simpa [and_assoc] using h⟩)
  · rintro (⟨body, rfl, h⟩ | ⟨body, rfl, h⟩ | ⟨body, rfl, h⟩)
    · exact Or.inl ⟨Or.inl ⟨body, rfl⟩, by simpa [and_assoc] using h⟩
    · exact Or.inl ⟨Or.inr ⟨body, rfl⟩, by simpa [and_assoc] using h⟩
    · exact Or.inr ⟨⟨body, rfl⟩, by simpa [and_assoc] using h⟩

theorem evmRegexTest_iff (l : List Char) :
    evmRegexTest l = true ↔
      ∃ body, l = '0' :: 'x' :: body ∧ body.length = 40 ∧
        ∀ c ∈ body, isHexDigitJS c = true := by
  simp only [evmRegexTest, Bool.and_eq_true, decide_eq_true_eq,
    List.all_eq_true, take_two_eq_iff]
  constructor
  · rintro ⟨⟨t, rfl⟩, h⟩
    exact ⟨t, rfl, by simpa [and_assoc] using h⟩
  · rintro ⟨body, rfl, h⟩
    exact ⟨⟨body, rfl⟩, by simpa [and_assoc] using h⟩

theorem solRegexTest_iff (l : List Char) :
    solRegexTest l = true ↔
      32 ≤ l.length ∧ l.length ≤ 44 ∧ ∀ c ∈ l, isBase58 c = true := by
  simp [solRegexTest, Bool.and_eq_true, decide_eq_true_eq, List.all_eq_true,
    and_assoc]

/-- C5: for every chain, `isValidAddress` returns true exactly when the
address matches that chain's fixed pattern — BTC: a legacy `1`, P2SH `3` or
bech32 `bc1` prefix followed by 25-59 alphanumerics; EVM: `0x` followed by
exactly 40 hex digits; SOL: 32-44 base58-alphabet characters.  In particular
every string of correct length with a wrong prefix or alphabet is rejected. -/
theorem isValidAddress_iff_pattern (address : String) (chain : Blockchain) :
    isValidAddress address chain = true ↔ specAddressPattern address chain := by
  obtain ⟨l⟩ := address
  by_cases hl : l = []
  · subst hl
    cases chain <;>
      simp [isValidAddress, specAddressPattern, specBTCPattern,
        specEVMPattern, specSOLPattern, String.length]
  · have hne : (String.mk l) ≠ "" := by
      simpa [String.ext_iff] using hl
    have hvalid : ∀ t : Bool, (if String.mk l = "" then false else t) = t := by
      intro t; rw [if_neg hne]
    cases chain with
    | BTC =>
        show (if String.mk l = "" then false else btcRegexTest l) = true ↔ _
        rw [hvalid, btcRegexTest_iff]
        exact Iff.rfl
    | ETH =>
        show (if String.mk l = "" then false else evmRegexTest l) = true ↔ _
        rw [hvalid, evmRegexTest_iff]
        exact Iff.rfl
    | BNB =>
        show (if String.mk l = "" then false else evmRegexTest l) = true ↔ _
        rw [hvalid, evmRegexTest_iff]
        exact Iff.rfl
    | SOL =>
        show (if String.mk l = "" then false else solRegexTest l) = true ↔ _
        rw [hvalid, solRegexTest_iff]
        exact Iff.rfl

/-! Helper lemmas about the fetchers' failure behaviour. -/

theorem evmFirstTx_failed (env : EVMEnv) (cache : PriceCache)
    (stats : WalletStats) (h : fetchFailed env.firstTxRes) :
    evmFirstTx env cache stats = (stats, cache) := by
  rcases h with h | h <;> simp [evmFirstTx, h]

theorem evmLatestTx_failed (address : String) (chain : Blockchain)
    (env : EVMEnv) (cache : PriceCache) (p : ℚ) (stats : WalletStats)
    (h2 : fetchFailed env.txRes) (h3 : fetchFailed env.firstTxRes) :
    evmLatestTx address chain env cache p stats = (stats, cache) := by
  rcases h2 with h2 | h2 <;>
    simp [evmLatestTx, h2, evmFirstTx_failed env cache stats h3]

theorem fetchEVMStats_allFailed (address : String) (chain : Blockchain)
    (env : EVMEnv) (now : ℤ) (cache : PriceCache)
    (h1 : fetchFailed env.balRes) (h2 : fetchFailed env.txRes)
    (h3 : fetchFailed env.firstTxRes) :
    (fetchEVMStats address chain env now cache).1 = defaultStats now := by
  by_cases hv : isValidAddress address chain <;>
    rcases h1 with h1 | h1 <;>
      simp [fetchEVMStats, hv, h1, evmAfterBal,
        evmLatestTx_failed address chain env _ _ _ h2 h3]

theorem solTokens_failed (env : SolEnv) (cache : PriceCache)
    (stats : WalletStats) (h : fetchFailed env.tokenRes) :
    solTokens env cache stats = (stats, cache) := by
  rcases h with h | h <;> simp [solTokens, h]

theorem solSignatures_failed (address : String) (env : SolEnv) (now : ℤ)
    (cache : PriceCache) (p : ℚ) (stats : WalletStats)
    (h3 : fetchFailed env.sigRes) (h4 : fetchFailed env.tokenRes) :
    solSignatures address env now cache p stats = (stats, cache) := by
  rcases h3 with h3 | h3 <;>
    simp [solSignatures, h3, solTokens_failed env cache stats h4]

theorem fetchSolanaStats_allFailed (address : String) (env : SolEnv)
    (now : ℤ) (cache : PriceCache) (h1 : fetchFailed env.balRes)
    (h3 : fetchFailed env.sigRes) (h4 : fetchFailed env.tokenRes) :
    (fetchSolanaStats address env now cache).1 = defaultStats now := by
  by_cases hv : isValidAddress address .SOL <;>
    rcases h1 with h1 | h1 <;>
      simp [fetchSolanaStats, hv, h1, solAfterBal,
        solSignatures_failed address env now _ _ _ h3 h4]

theorem fetchBTCStats_addrFailed (address : String) (env : BTCEnv) (now : ℤ)
    (cache : PriceCache) (h : fetchFailed env.addrRes) :
    fetchBTCStats address env now cache = (defaultStats now, cache) := by
  by_cases hv : isValidAddress address .BTC <;>
    rcases h with h | h <;> simp [fetchBTCStats, hv, h]

theorem fetchBTCStats_invalid (address : String) (env : BTCEnv) (now : ℤ)
    (cache : PriceCache) (hv : isValidAddress address .BTC = false) :
    fetchBTCStats address env now cache = (defaultStats now, cache) := by
  simp [fetchBTCStats, hv]

theorem fetchEVMStats_invalid (address : String) (chain : Blockchain)
    (env : EVMEnv) (now : ℤ) (cache : PriceCache)
    (hv : isValidAddress address chain = false) :
    fetchEVMStats address chain env now cache = (defaultStats now, cache) := by
  simp [fetchEVMStats, hv]

theorem fetchSolanaStats_invalid (address : String) (env : SolEnv) (now : ℤ)
    (cache : PriceCache) (hv : isValidAddress address .SOL = false) :
    fetchSolanaStats address env now cache = (defaultStats now, cache) := by
  simp [fetchSolanaStats, hv]

/-- C2 counterexample: with a valid address, a successful balance call and a
network failure on the subsequent transaction-list call, `fetchEVMStats`
returns a stats object carrying the already-fetched 1-ether balance — not the
zeroed/default stats object the claim promises on any network failure. -/
theorem fetchEVMStats_partial_failure_not_default :
    (fetchEVMStats evmAddrA Blockchain.ETH evmEnvPartialFail 0 emptyCache).1.balance = 1 ∧
    (fetchEVMStats evmAddrA Blockchain.ETH evmEnvPartialFail 0 emptyCache).1 ≠
      defaultStats 0 := by
  have hv : isValidAddress evmAddrA Blockchain.ETH = true := by decide
  have hbal : (fetchEVMStats evmAddrA Blockchain.ETH evmEnvPartialFail 0
      emptyCache).1.balance = 1 := by
    simp [fetchEVMStats, hv, evmEnvPartialFail, evmAfterBal, evmLatestTx]
  refine ⟨hbal, fun hcontra => ?_⟩
  have hzero : (defaultStats 0).balance = 1 := by rw [← hcontra]; exact hbal
  simp [defaultStats] at hzero

/-- C2 (amended): each per-chain fetcher always returns a `WalletStats` (the
embedding is a total function; every throwing path of the source is caught).
It returns the zeroed/default stats object when address validation fails and
when every upstream request fails; but a failure occurring after an earlier
request succeeded leaves the earlier-fetched fields populated, so the result
is not the default in that case. -/
theorem fetchers_default_on_failure :
    (∀ address env now cache, isValidAddress address Blockchain.BTC = false →
        fetchBTCStats address env now cache = (defaultStats now, cache)) ∧
    (∀ address chain env now cache, isValidAddress address chain = false →
        fetchEVMStats address chain env now cache = (defaultStats now, cache)) ∧
    (∀ address env now cache, isValidAddress address Blockchain.SOL = false →
        fetchSolanaStats address env now cache = (defaultStats now, cache)) ∧
    (∀ address env now cache, fetchFailed env.addrRes →
        fetchBTCStats address env now cache = (defaultStats now, cache)) ∧
    (∀ address chain env now cache, fetchFailed env.balRes →
        fetchFailed env.txRes → fetchFailed env.firstTxRes →
        (fetchEVMStats address chain env now cache).1 = defaultStats now) ∧
    (∀ address env now cache, fetchFailed env.balRes →
        fetchFailed env.sigRes → fetchFailed env.tokenRes →
        (fetchSolanaStats address env now cache).1 = defaultStats now) :=
  ⟨fetchBTCStats_invalid, fetchEVMStats_invalid, fetchSolanaStats_invalid,
    fetchBTCStats_addrFailed, fetchEVMStats_allFailed, fetchSolanaStats_allFailed⟩

/-- C2 witness: the amended theorem evaluated at concrete inputs — an invalid
BTC address and a BTC environment in which every request fails. -/
theorem fetchers_default_on_failure_witness :
    fetchBTCStats "not-an-address" btcEnvAllFail 0 emptyCache =
      (defaultStats 0, emptyCache) ∧
    (fetchBTCStats btcAddrA btcEnvAllFail 0 emptyCache) =
      (defaultStats 0, emptyCache) :=
  ⟨fetchers_default_on_failure.1 "not-an-address" btcEnvAllFail 0 emptyCache
      (by decide),
    fetchers_default_on_failure.2.2.2.1 btcAddrA btcEnvAllFail 0 emptyCache
      (Or.inl rfl)⟩

/-! Helper lemmas for the Solana placeholder fields. -/

theorem solTokens_preserves (env : SolEnv) (cache : PriceCache)
    (stats : WalletStats) :
    (solTokens env cache stats).1.txCount = stats.txCount ∧
    (solTokens env cache stats).1.firstTxDate = stats.firstTxDate := by
  cases h : env.tokenRes with
  | threw => simp [solTokens, h]
  | notOk => simp [solTokens, h]
  | ok d => cases hd : d.result_value <;> simp [solTokens, h, hd]

theorem solSignatures_placeholder (address : String) (env : SolEnv) (now : ℤ)
    (cache : PriceCache) (p : ℚ) (stats : WalletStats) :
    (solSignatures address env now cache p stats).1.firstTxDate =
      stats.firstTxDate ∧
    ((solSignatures address env now cache p stats).1.txCount = stats.txCount ∨
      (solSignatures address env now cache p stats).1.txCount = 100) := by
  cases h : env.sigRes with
  | threw => simp [solSignatures, h]
  | notOk =>
      have hp := solTokens_preserves env cache stats
      simp [solSignatures, h, hp.1, hp.2]
  | ok d =>
      cases hd : d.result with
      | none =>
          have hp := solTokens_preserves env cache stats
          simp [solSignatures, h, hd, hp.1, hp.2]
      | some sigs =>
          cases sigs with
          | nil =>
              have hp := solTokens_preserves env cache stats
              simp [solSignatures, h, hd, hp.1, hp.2]
          | cons tx rest =>
              rw [show solSignatures address env now cache p stats =
                  solTokens env cache
                    { stats with
                        txCount := 100
                        latestTransaction := some
                          { hash := tx.signature
                            timestamp :=
                              match tx.blockTime with
                              | some bt => if bt = 0 then now else bt * 1000
                              | none => now
                            type := .send
                            token :=
                              { symbol := "SOL"
                                name := "Solana"
                                balance := 0
                                decimals := 9
                                contractAddress := "native"
                                chain := .SOL
                                priceUSD := some p }
                            amount := 0
                            amountUSD := 0
                            fromAddr := address
                            toAddr := "Solana Program/Wallet"
                            fee := 5 / 1000000 } } from by
                  simp [solSignatures, h, hd]]
              exact ⟨(solTokens_preserves _ _ _).2.trans rfl,
                Or.inr ((solTokens_preserves _ _ _).1.trans rfl)⟩

/-- C4 (amended): `fetchSolanaStats` always leaves `firstTxDate` at its
default (the current time) — it never computes one from the endpoint set —
and its `txCount` is never computed from endpoint data either: it is either
the default `0` or the hardcoded placeholder `100` (the latter whenever the
signature probe returns at least one signature, so the count does not always
stay at its default value). -/
theorem fetchSolanaStats_placeholder (address : String) (env : SolEnv)
    (now : ℤ) (cache : PriceCache) :
    (fetchSolanaStats address env now cache).1.firstTxDate = now ∧
    ((fetchSolanaStats address env now cache).1.txCount = 0 ∨
      (fetchSolanaStats address env now cache).1.txCount = 100) := by
  by_cases hv : isValidAddress address .SOL
  · cases h : env.balRes with
    | threw => simp [fetchSolanaStats, hv, h, defaultStats]
    | notOk =>
        have hp := solSignatures_placeholder address env now
          (fetchTokenPrices ["solana"] now env.priceResp cache).cache
          (((fetchTokenPrices ["solana"] now env.priceResp cache).prices.lookup
            "solana").getD 0) (defaultStats now)
        simpa [fetchSolanaStats, hv, h, solAfterBal, defaultStats] using hp
    | ok balData =>
        have hp := solSignatures_placeholder address env now
          (fetchTokenPrices ["solana"] now env.priceResp cache).cache
          (((fetchTokenPrices ["solana"] now env.priceResp cache).prices.lookup
            "solana").getD 0)
          { defaultStats now with
              balance := (balData.result_value.getD 0) / 1000000000 }
        simpa [fetchSolanaStats, hv, h, solAfterBal, defaultStats] using hp
  · simp [fetchSolanaStats, hv, defaultStats]

/-- C4 witness: the amended theorem evaluated at a concrete address and
environment. -/
theorem fetchSolanaStats_placeholder_witness :
    (fetchSolanaStats solAddrA solEnvOneSig 0 emptyCache).1.firstTxDate = 0 ∧
    ((fetchSolanaStats solAddrA solEnvOneSig 0 emptyCache).1.txCount = 0 ∨
      (fetchSolanaStats solAddrA solEnvOneSig 0 emptyCache).1.txCount = 100) :=
  fetchSolanaStats_placeholder solAddrA solEnvOneSig 0 emptyCache

/-- C4 counterexample: with one signature returned, `fetchSolanaStats` sets
`txCount` to the hardcoded placeholder `100`, so the transaction count is not
left at its default value `0` as the claim states. -/
theorem fetchSolanaStats_txCount_not_default :
    (fetchSolanaStats solAddrA solEnvOneSig 0 emptyCache).1.txCount = 100 ∧
    (defaultStats 0).txCount = 0 := by
  have hv : isValidAddress solAddrA Blockchain.SOL = true := by decide
  constructor
  · simp [fetchSolanaStats, hv, solEnvOneSig, solAfterBal, solSignatures,
      solTokens]
  · rfl

theorem btc_foldl_receive_sum (l : List BTCVout) (address : String) (a : ℚ) :
    l.foldl
        (fun acc out =>
          if out.scriptpubkey_address = some address then acc + out.value
          else acc) a =
      a + ((l.filter fun out =>
          decide (out.scriptpubkey_address = some address)).map
        BTCVout.value).sum := by
  induction l generalizing a with
  | nil => simp
  | cons x xs ih =>
      by_cases hx : x.scriptpubkey_address = some address
      · simp [List.foldl_cons, hx, ih, add_assoc]
      · simp [List.foldl_cons, hx, ih]

/-- C10: whenever the latest fetched BTC transaction lists the queried
address among its outputs, `fetchBTCStats` classifies it as a receive and
reports as its amount the sum of exactly the outputs paying that address
(scaled from satoshi) — with no condition on the inputs, so this holds even
when the address also appears among the transaction's inputs (a self-transfer
or a spend with change is always reported as a receive, never a send). -/
theorem fetchBTCStats_receive_classification (address : String) (env : BTCEnv)
    (now : ℤ) (cache : PriceCache) (addrData : BTCAddrData) (lastTx : BTCTx)
    (txail : List BTCTx)
    (hvalid : isValidAddress address .BTC = true)
    (haddr : env.addrRes = .ok addrData)
    (htx : env.txRes = .ok (lastTx :: txail))
    (hrecv : (lastTx.vout.any fun out =>
        decide (out.scriptpubkey_address = some address)) = true) :
    ∃ lt, (fetchBTCStats address env now cache).1.latestTransaction = some lt ∧
      lt.type = TxType.receive ∧
      lt.amount = ((lastTx.vout.filter fun out =>
          decide (out.scriptpubkey_address = some address)).map
        BTCVout.value).sum / 100000000 := by
  simp only [fetchBTCStats, hvalid, Bool.not_true, Bool.false_eq_true,
    if_false, haddr, htx, btcProcessTxs, hrecv, if_true]
  exact ⟨_, rfl, rfl, by rw [btc_foldl_receive_sum]; rw [zero_add]⟩

/-- C10 witness: the theorem evaluated on a concrete self-transfer whose
inputs and outputs both contain the address. -/
theorem fetchBTCStats_receive_classification_witness :
    ∃ lt, (fetchBTCStats btcAddrA btcEnvSelf 0 emptyCache).1.latestTransaction =
        some lt ∧
      lt.type = TxType.receive ∧
      lt.amount = ((btcSelfTx.vout.filter fun out =>
          decide (out.scriptpubkey_address = some btcAddrA)).map
        BTCVout.value).sum / 100000000 :=
  fetchBTCStats_receive_classification btcAddrA btcEnvSelf 0 emptyCache
    { chain_stats := some { funded_txo_sum := 80000, spent_txo_sum := 50000, tx_count := 2 },
      mempool_stats := none }
    btcSelfTx [] (by decide) rfl rfl (by decide)

/-- C3 counterexample: when the first call's upstream request fails (the
fetch rejects), nothing is cached, so a second call for the same id 30
seconds later issues a second upstream request — the two calls, both within
60 seconds and both requesting `"bitcoin"`, issue two upstream requests, not
at most one. -/
theorem fetchTokenPrices_two_requests :
    (fetchTokenPrices ["bitcoin"] 0 .threw emptyCache).requested = true ∧
    (fetchTokenPrices ["bitcoin"] 30000 .threw
        (fetchTokenPrices ["bitcoin"] 0 .threw emptyCache).cache).requested =
      true := by
  constructor
  · decide
  · decide

/-- C3 (amended): the claim holds when the first call's upstream request
succeeds and its response contains the id — a second call for that id within
60 seconds then issues no upstream request and reuses the cached price; but
when the first request fails (or its response omits the id) nothing is
cached, and the second call fetches again, so two calls within 60 seconds
can issue two upstream requests. -/
theorem fetchTokenPrices_cache_hit (id : String) (p : ℚ) (now1 now2 : ℤ)
    (cache : PriceCache) (data : List (String × ℚ))
    (resp2 : FetchOutcome (List (String × ℚ)))
    (hmiss : cache id = none)
    (hdata : data.lookup id = some p)
    (hdt : now2 - now1 ≤ PRICE_CACHE_TTL) :
    (fetchTokenPrices [id] now1 (.ok data) cache).requested = true ∧
    (fetchTokenPrices [id] now2 resp2
        (fetchTokenPrices [id] now1 (.ok data) cache).cache).requested = false ∧
    ((fetchTokenPrices [id] now2 resp2
        (fetchTokenPrices [id] now1 (.ok data) cache).cache).prices).lookup id =
      some p := by
  have httl : PRICE_CACHE_TTL = 60000 := rfl
  have hstale : (decide (now2 - now1 > PRICE_CACHE_TTL)) = false := by
    rw [decide_eq_false_iff_not]
    omega
  have hcache1 : (fetchTokenPrices [id] now1 (.ok data) cache).cache id =
      some { price := p, timestamp := now1 } := by
    simp [fetchTokenPrices, List.filter, hmiss, hdata]
  have hreq1 : (fetchTokenPrices [id] now1 (.ok data) cache).requested = true := by
    simp [fetchTokenPrices, List.filter, hmiss]
  obtain ⟨c1, hc1⟩ : ∃ c, (fetchTokenPrices [id] now1 (.ok data) cache).cache = c :=
    ⟨_, rfl⟩
  rw [hc1] at hcache1
  have hempty : (([id].filter fun i =>
      match c1 i with
      | none => true
      | some e => decide (now2 - e.timestamp > PRICE_CACHE_TTL)) : List String) = [] := by
    simp only [List.filter, hcache1]
    simp [hstale]
  refine ⟨hreq1, ?_, ?_⟩
  · rw [hc1]
    simp only [fetchTokenPrices]
    rw [hempty]
    simp
  · rw [hc1]
    simp only [fetchTokenPrices]
    rw [hempty]
    simp [List.lookup, hcache1]

/-- C3 witness: the amended theorem at a concrete id, price, clock and
response. -/
theorem fetchTokenPrices_cache_hit_witness :
    (fetchTokenPrices ["bitcoin"] 0 (.ok [("bitcoin", 5)]) emptyCache).requested = true ∧
    (fetchTokenPrices ["bitcoin"] 30000 .threw
        (fetchTokenPrices ["bitcoin"] 0 (.ok [("bitcoin", 5)]) emptyCache).cache).requested =
      false ∧
    ((fetchTokenPrices ["bitcoin"] 30000 .threw
        (fetchTokenPrices ["bitcoin"] 0 (.ok [("bitcoin", 5)]) emptyCache).cache).prices).lookup
      "bitcoin" = some 5 :=
  fetchTokenPrices_cache_hit "bitcoin" 5 0 30000 emptyCache [("bitcoin", 5)]
    .threw rfl rfl (by decide)

/-- C6: `getAllProfiles` and `getProfileByUsername` never throw — on any
storage error or connection exception they degrade to an empty result — while
`createProfile` is the one profile-store operation whose failure propagates:
a resolved storage error is rethrown carrying the storage error message, and
an exception propagates unchanged. -/
theorem storage_error_propagation :
    (∀ env : SupabaseResult (List ProfileRow), (getAllProfiles env).isOk = true) ∧
    (∀ e : StorageError, getAllProfiles (.err e) = .ok []) ∧
    (∀ msg : String, getAllProfiles (.exn msg) = .ok []) ∧
    (∀ (env : SupabaseResult (Option ProfileRow)) (username : String),
        (getProfileByUsername env username).isOk = true) ∧
    (∀ (input : CreateProfileInput) (digits : RandomDraw) (now : ℤ)
        (e : StorageError), e.message ≠ "" →
        createProfile input digits now (.err e) = .error e.message) ∧
    (∀ (input : CreateProfileInput) (digits : RandomDraw) (now : ℤ)
        (msg : String), createProfile input digits now (.exn msg) = .error msg) := by
  refine ⟨?_, ?_, ?_, ?_, ?_, ?_⟩
  · intro env; cases env <;> rfl
  · intro e; rfl
  · intro msg; rfl
  · intro env username
    rcases env with msg | e | data
    · rfl
    · rfl
    · cases data <;> rfl
  · intro input digits now e h
    simp [createProfile, h]
  · intro input digits now msg; rfl

/-- C6 witness: the theorem at a concrete storage error. -/
theorem storage_error_propagation_witness :
    getAllProfiles (.err { message := "boom" }) = .ok [] ∧
    createProfile inputA [] 5 (.err { message := "boom" }) = .error "boom" :=
  ⟨storage_error_propagation.2.1 { message := "boom" },
    storage_error_propagation.2.2.2.2.1 inputA [] 5 { message := "boom" }
      (by decide)⟩

/-- C7: `signSolana` performs no cryptographic verification: whenever the
provider's `signMessage` resolves with a truthy `signature` field it returns
true, for any signature bytes whatsoever; moreover its result does not depend
on the address or the message at all. -/
theorem signSolana_no_verification :
    (∀ (address message : String) (env : SolSignEnv) (bytes : List ℕ),
        env.providerPresent = true →
        env.signOutcome = .ok { signature := some bytes } →
        signSolana address message env = .ok true) ∧
    (∀ (a1 m1 a2 m2 : String) (env : SolSignEnv),
        signSolana a1 m1 env = signSolana a2 m2 env) := by
  constructor
  · intro address message env bytes hp hs
    simp [signSolana, hp, hs]
  · intro a1 m1 a2 m2 env
    rfl

/-- C7 witness: the theorem at a concrete environment whose provider returns
three arbitrary bytes as the signature. -/
theorem signSolana_no_verification_witness :
    signSolana "anyAddress" "anyMessage" solSignEnvA = .ok true :=
  signSolana_no_verification.1 "anyAddress" "anyMessage" solSignEnvA [1, 2, 3]
    rfl rfl

/-- C8: when the signer resolves with an address matching the expected one
(case-insensitively), signing succeeds, and the address recovered from the
signature differs case-insensitively from the expected address, `signEVM`
returns `false` rather than throwing. -/
theorem signEVM_mismatch_returns_false (address message : String)
    (env : EVMSignEnv) (signerAddr signature : String)
    (hpres : env.ethereumPresent = true)
    (hsigner : env.signerOutcome = .ok signerAddr)
    (hmatch : jsToLower signerAddr = jsToLower address)
    (hsign : env.signOutcome = .ok signature)
    (hrec : jsToLower (env.recover message signature) ≠ jsToLower address) :
    signEVM address message env = .ok false := by
  simp [signEVM, hpres, hsigner, hmatch, hsign, hrec]

/-- C8 witness: the theorem at a concrete mocked signer whose recovery yields
a different address. -/
theorem signEVM_mismatch_returns_false_witness :
    signEVM evmAddrA "hello" evmSignEnvA = .ok false :=
  signEVM_mismatch_returns_false evmAddrA "hello" evmSignEnvA
    "0xAAAAAAAAAAAAAAAAAAAAAAAAAAAAAAAAAAAAAAAA" "0xsig" rfl rfl (by decide)
    rfl (by decide)

theorem base36Char_injective : Function.Injective base36Char := by decide

/-- What `createProfile` returns on a successful insert. -/
theorem createProfile_ok_eq (input : CreateProfileInput) (d : RandomDraw)
    (now : ℤ) :
    createProfile input d now (.ok ()) = .ok
      { id := jsRandomId d
        username := input.username
        address := input.address
        chain := input.chain
        createdAt := now
        logoUrl := jsOrNull input.logoUrl
        socials := some (input.socials.getD {}) } := rfl

theorem jsRandomId_ne_empty (d : RandomDraw) (h : d ≠ []) :
    jsRandomId d ≠ "" := by
  simp only [jsRandomId, ne_eq, String.ext_iff]
  simp [List.take_eq_nil_iff, h]

theorem jsRandomId_ne_of_take_ne (d1 d2 : RandomDraw)
    (h : d1.take 9 ≠ d2.take 9) : jsRandomId d1 ≠ jsRandomId d2 := by
  intro hc
  apply h
  have hmap : (d1.take 9).map base36Char = (d2.take 9).map base36Char := by
    simpa [jsRandomId, String.ext_iff] using hc
  exact List.map_injective_iff.mpr base36Char_injective hmap

/-- C9 counterexample: `Math.random()` may return 0, whose
`toString(36).substr(2, 9)` is the empty string — two successful calls that
both draw 0 return the empty id twice, so the returned id is neither
non-empty nor distinct across calls. -/
theorem createProfile_zero_draw_empty_ids :
    (createProfile inputA ([] : RandomDraw) 5 (.ok ())).map UserProfile.id = .ok "" ∧
    (createProfile inputA ([] : RandomDraw) 7 (.ok ())).map UserProfile.id = .ok "" := by
  constructor <;> rfl

/-- C9 (amended): every successful `createProfile` call returns a record
whose `createdAt` is the stamped creation time (a number); its id is
non-empty whenever the `Math.random()` draw is nonzero, and the ids of two
successful calls are distinct whenever the two draws differ in their first
nine base-36 fraction digits (a zero draw yields an empty id, and draws
agreeing on those digits collide, as the counterexample shows). -/
theorem createProfile_id_spec (input : CreateProfileInput) (d1 d2 : RandomDraw)
    (now1 now2 : ℤ) (p1 p2 : UserProfile)
    (h1 : createProfile input d1 now1 (.ok ()) = .ok p1)
    (h2 : createProfile input d2 now2 (.ok ()) = .ok p2)
    (hnz : d1 ≠ [])
    (hne : d1.take 9 ≠ d2.take 9) :
    p1.createdAt = now1 ∧ p1.id ≠ "" ∧ p1.id ≠ p2.id := by
  rw [createProfile_ok_eq] at h1 h2
  injection h1 with h1
  injection h2 with h2
  subst h1
  subst h2
  exact ⟨rfl, jsRandomId_ne_empty d1 hnz, jsRandomId_ne_of_take_ne d1 d2 hne⟩

/-- C9 witness: the amended theorem at two concrete nonzero draws. -/
theorem createProfile_id_spec_witness :
    profileA.createdAt = 5 ∧ profileA.id ≠ "" ∧ profileA.id ≠ profileB.id :=
  createProfile_id_spec inputA [(10 : Fin 36)] [(11 : Fin 36)] 5 7
    profileA profileB rfl rfl (by decide) (by decide)

end VerifiedOnChain
